import Mathlib

/-!
Verification of the AgentHire (HireAgent) candidate-analysis pipeline.

The data model below is embedded from the TypeScript type declarations
(frontend/types, the file declaring ResumeData, JobDescription, ScoreBreakdown,
ProfileEnrichment, CandidateAnalysis).  Frontend operations (handleAnalyze,
handleFileSelect, validateLinkedInUrl, validateGitHubUrl) are embedded from the
React components.  The FastAPI backend sources are not part of this tree; the
backend operations (upload-resume, validate-job-description, cleanup-file,
enrich, score, aggregate) are modelled from the specification, each marked
`Modelled from the spec:` in its doc comment.

Conventions: JavaScript / JSON numbers carrying scores are modelled as `Rat`;
byte sizes and counts as `Nat`; nullable / optional fields as `Option`;
fallible operations return `Except` or a response record with a success flag.
-/

/-! ## Data model (embedded from the TypeScript type declarations) -/

structure EducationEntry where
  degree : String
  institution : String
  year : String
  gpa : Option String
deriving DecidableEq

structure ExperienceEntry where
  title : String
  company : String
  duration : String
  description : String
deriving DecidableEq

structure ProjectEntry where
  name : String
  description : String
  technologies : List String
deriving DecidableEq

structure ResumeData where
  name : Option String
  email : Option String
  phone : Option String
  location : Option String
  education : List EducationEntry
  skills : List String
  experience : List ExperienceEntry
  certifications : List String
  languages : List String
  summary : Option String
  projects : Option (List ProjectEntry)
  linkedin_url : Option String
  github_url : Option String
  portfolio_url : Option String
deriving DecidableEq

structure JobDescription where
  title : String
  company : String
  description : String
  required_skills : List String
  preferred_skills : List String
  experience_level : Option String
  education_requirements : List String
  location : Option String
deriving DecidableEq

structure LinkedInProfile where
  headline : Option String
  summary : Option String
  experience : List (List (String × String))
  education : List (List (String × String))
  skills : List String
  endorsements : List (String × Nat)
  connections : Option Nat
  certifications : List String
deriving DecidableEq

structure RepoInfo where
  name : String
  description : Option String
  language : Option String
  stars : Nat
  forks : Nat
  updated_at : String
  url : String
deriving DecidableEq

structure GitHubProfile where
  username : String
  name : Option String
  bio : Option String
  public_repos : Nat
  followers : Nat
  following : Nat
  repositories : List RepoInfo
  languages : List (String × Nat)
  contribution_stats : List (String × String)
  top_repositories : List RepoInfo
deriving DecidableEq

structure ProfileEnrichment where
  linkedin : Option LinkedInProfile
  github : Option GitHubProfile
  portfolio : Option (List (String × String))
deriving DecidableEq

structure ScoreBreakdown where
  resume_match : Rat
  linkedin_score : Rat
  github_score : Rat
  portfolio_score : Rat
  total_score : Rat
  explanation : String
deriving DecidableEq

structure CandidateAnalysis where
  candidate_name : Option String
  resume_data : ResumeData
  job_description : JobDescription
  profile_enrichment : Option ProfileEnrichment
  score_breakdown : ScoreBreakdown
  recommendations : List String
  red_flags : List String
  analysis_timestamp : String
deriving DecidableEq

/-! ## String utilities modelling the JavaScript built-ins used by the frontend -/

/-- Whitespace stripped by the JavaScript string trim built-in (the common
whitespace characters: space, tab, line feed, carriage return). -/
def isJsWhitespace (c : Char) : Bool :=
  c == ' ' || c == '\t' || c == '\n' || c == '\r'

/-- Model of the JavaScript string trim built-in: strip leading and trailing
whitespace. -/
def jsTrim (s : String) : String :=
  String.mk (((s.data.dropWhile isJsWhitespace).reverse.dropWhile isJsWhitespace).reverse)

/-- Boolean test that the first list is a prefix of the second, by character
comparison. -/
def isPrefixOfChars : List Char → List Char → Bool
  | [], _ => true
  | _ :: _, [] => false
  | a :: as, b :: bs => a == b && isPrefixOfChars as bs

/-- Model of the JavaScript string includes built-in: `containsSub n h` is true
when `n` occurs as a contiguous substring anywhere in `h`. -/
def containsSub (needle : List Char) : List Char → Bool
  | [] => needle.isEmpty
  | c :: rest => isPrefixOfChars needle (c :: rest) || containsSub needle rest

theorem isPrefixOfChars_iff :
    ∀ n h : List Char, isPrefixOfChars n h = true ↔ ∃ t, h = n ++ t := by
  intro n
  induction n with
  | nil =>
      intro h
      simp [isPrefixOfChars]
  | cons a as ih =>
      intro h
      cases h with
      | nil =>
          simp [isPrefixOfChars]
      | cons b bs =>
          simp only [isPrefixOfChars, Bool.and_eq_true, beq_iff_eq, ih bs]
          constructor
          · rintro ⟨hab, t, ht⟩
            exact ⟨t, by simp [hab, ht]⟩
          · rintro ⟨t, ht⟩
            simp only [List.cons_append, List.cons.injEq] at ht
            exact ⟨ht.1.symm, t, ht.2⟩

theorem containsSub_iff (n : List Char) :
    ∀ h : List Char, containsSub n h = true ↔ ∃ p t, h = p ++ (n ++ t) := by
  intro h
  induction h with
  | nil =>
      simp only [containsSub, List.isEmpty_iff]
      constructor
      · intro hn
        exact ⟨[], [], by simp [hn]⟩
      · rintro ⟨p, t, hpt⟩
        rcases List.append_eq_nil.mp hpt.symm with ⟨hp, hnt⟩
        exact (List.append_eq_nil.mp hnt).1
  | cons c rest ih =>
      simp only [containsSub, Bool.or_eq_true, isPrefixOfChars_iff, ih]
      constructor
      · rintro (⟨t, ht⟩ | ⟨p, t, hpt⟩)
        · exact ⟨[], t, by simp [ht]⟩
        · exact ⟨c :: p, t, by simp [hpt]⟩
      · rintro ⟨p, t, hpt⟩
        cases p with
        | nil =>
            exact Or.inl ⟨t, by simpa using hpt⟩
        | cons q qs =>
            simp only [List.cons_append, List.cons.injEq] at hpt
            exact Or.inr ⟨qs, t, hpt.2⟩

/-! ## Frontend: the comprehensive-analysis page (pages/index.tsx) -/

/-- The presentation state held by the index page: `analyzing`, `results`,
`extractedUrls`, `analysisDetails`.  The three payloads are untyped in the
source (any), so they are type parameters here. -/
structure AnalysisState (R U D : Type) where
  analyzing : Bool
  results : Option R
  extractedUrls : Option U
  analysisDetails : Option D
deriving DecidableEq

/-- The initial / reset presentation state: not analyzing, all payloads null. -/
def resetState {R U D : Type} : AnalysisState R U D :=
  ⟨false, none, none, none⟩

/-- Outcome of the POST to the comprehensive-analysis endpoint as observed by
the page: either the fetch or JSON decoding threw, or a reply arrived carrying
the HTTP ok flag, the success flag, and the three payload fields. -/
inductive FetchOutcome (R U D : Type) where
  | thrown
  | reply (ok : Bool) (success : Bool) (analysis : Option R)
      (extracted_urls : Option U) (analysis_details : Option D)
deriving DecidableEq

/-- Whether a comprehensive-analysis outcome is a failure for the page: a
thrown error, a non-ok HTTP status, or a reply with the success flag false. -/
def failingOutcome {R U D : Type} : FetchOutcome R U D → Bool
  | FetchOutcome.thrown => true
  | FetchOutcome.reply ok success _ _ _ => !ok || !success

/-- The handleAnalyze handler of pages/index.tsx.  Guards: a file must be
selected, the trimmed job description must be non-empty and at least 50
characters; only then is the request issued.  On a failing outcome the state
is reset; on success the three payload fields are stored.  Returns the final
presentation state and whether a network request was issued. -/
def handleAnalyze {F R U D : Type} (file : Option F) (jobDescription : String)
    (outcome : FetchOutcome R U D) (st : AnalysisState R U D) :
    AnalysisState R U D × Bool :=
  if file.isNone then (st, false)
  else if jsTrim jobDescription = "" then (st, false)
  else if (jsTrim jobDescription).length < 50 then (st, false)
  else
    match outcome with
    | FetchOutcome.thrown => (resetState, true)
    | FetchOutcome.reply ok success analysis extracted details =>
        if !ok then (resetState, true)
        else if success then (⟨false, analysis, extracted, details⟩, true)
        else (resetState, true)

/-! ## Frontend: profile URL validators (components/ProfileUrlsForm.tsx) -/

/-- Result of a react-hook-form field validator: the source returns true for a
valid field and an error-message string otherwise. -/
inductive FieldValidation where
  | valid
  | invalid (message : String)
deriving DecidableEq

/-- validateUrl of ProfileUrlsForm.tsx: an empty optional field is valid;
otherwise the value must parse as a URL.  The browser URL parser is passed in
as the oracle `parsesAsUrl`. -/
def validateUrl (parsesAsUrl : String → Bool) (value : String) : FieldValidation :=
  if value = "" then FieldValidation.valid
  else if parsesAsUrl value then FieldValidation.valid
  else FieldValidation.invalid "Please enter a valid URL"

/-- validateLinkedInUrl of ProfileUrlsForm.tsx: empty is valid; else the value
must pass validateUrl and contain the substring linkedin.com anywhere. -/
def validateLinkedInUrl (parsesAsUrl : String → Bool) (value : String) :
    FieldValidation :=
  if value = "" then FieldValidation.valid
  else
    match validateUrl parsesAsUrl value with
    | FieldValidation.invalid m => FieldValidation.invalid m
    | FieldValidation.valid =>
        if containsSub ("linkedin.com".data) value.data then FieldValidation.valid
        else FieldValidation.invalid "Please enter a valid LinkedIn URL"

/-- validateGitHubUrl of ProfileUrlsForm.tsx: empty is valid; else the value
must pass validateUrl and contain the substring github.com anywhere. -/
def validateGitHubUrl (parsesAsUrl : String → Bool) (value : String) :
    FieldValidation :=
  if value = "" then FieldValidation.valid
  else
    match validateUrl parsesAsUrl value with
    | FieldValidation.invalid m => FieldValidation.invalid m
    | FieldValidation.valid =>
        if containsSub ("github.com".data) value.data then FieldValidation.valid
        else FieldValidation.invalid "Please enter a valid GitHub URL"

/-! ## Frontend: the scales used by the two result views

components/AnalysisResults.tsx (the enrichment breakdown view) renders
total_score labelled Out of 145, resume_match Out of 100, linkedin_score Out
of 20, github_score Out of 15, portfolio_score Out of 10, and repeats
total / 145 in its assessment summary.  The job-specific results view (the
second AnalysisResults variant in the tree) renders the same total_score field
labelled Out of 100 and repeats total / 100 in its hiring-decision tab.
components/ProfileUrlsForm.tsx advertises bonus maxima +20 / +15 / +10 for
LinkedIn / GitHub / portfolio. -/

def breakdownViewTotalMax : Nat := 145

def breakdownViewResumeMax : Nat := 100

def breakdownViewLinkedinMax : Nat := 20

def breakdownViewGithubMax : Nat := 15

def breakdownViewPortfolioMax : Nat := 10

def jobSpecificViewTotalMax : Nat := 100

def linkedinBonusMax : Nat := 20

def githubBonusMax : Nat := 15

def portfolioBonusMax : Nat := 10

/-! ## Backend: File Intake (the FastAPI sources are not in this tree) -/

/-- Modelled from the spec: the configured allowed upload extensions
(ALLOWED_EXTENSIONS=pdf,docx,txt in the environment files). -/
def allowedExtensions : List String := ["pdf", "docx", "txt"]

/-- Modelled from the spec: the configured maximum upload size in bytes
(MAX_FILE_SIZE=10485760, 10 MiB). -/
def maxFileSize : Nat := 10485760

/-- Modelled from the spec: the ValidationError-class rejections of File
Intake (InvalidFileType, FileTooLarge). -/
inductive UploadError where
  | invalidFileType
  | fileTooLarge
deriving DecidableEq

/-- Modelled from the spec: File Intake validation — the extension must be one
of the allowed extensions and the size must not exceed the configured maximum;
rejects otherwise with InvalidFileType or FileTooLarge. -/
def validateUpload (ext : String) (size : Nat) : Option UploadError :=
  if ext ∈ allowedExtensions then
    if maxFileSize < size then some UploadError.fileTooLarge else none
  else some UploadError.invalidFileType

/-- Modelled from the spec: one stored upload — extracted text plus a creation
timestamp for later cleanup. -/
structure StoredFile where
  extracted_text : String
  created_at : Nat
deriving DecidableEq

/-- Modelled from the spec: the upload directory, the only server-side mutable
state.  File identifiers are opaque generated values; the generator is
modelled as a counter so that each generated identifier is fresh. -/
structure UploadStore where
  nextId : Nat
  files : List (Nat × StoredFile)
deriving DecidableEq

/-- Reply of the upload-resume endpoint: accepted with the generated file
identifier and the extracted text, or rejected with a validation error. -/
inductive UploadOutcome where
  | accepted (file_id : Nat) (extracted_text : String)
  | rejected (error : UploadError)
deriving DecidableEq

/-- Modelled from the spec: POST upload-resume — validate extension and size,
extract text (TXT is read directly, PDF and DOCX extraction is delegated to
the library oracle `extractOracle`), store the text under a freshly generated
identifier with a creation timestamp, and return the identifier and text.  A
rejected upload leaves the store untouched (no partial success). -/
def uploadResume (extractOracle : String → String) (ext : String) (size : Nat)
    (content : String) (now : Nat) (store : UploadStore) :
    UploadOutcome × UploadStore :=
  match validateUpload ext size with
  | some e => (UploadOutcome.rejected e, store)
  | none =>
      let text := if ext = "txt" then content else extractOracle content
      (UploadOutcome.accepted store.nextId text,
        ⟨store.nextId + 1, (store.nextId, ⟨text, now⟩) :: store.files⟩)

/-- Reply of the cleanup-file endpoint. -/
structure CleanupResponse where
  success : Bool
  message : String
deriving DecidableEq

/-- Modelled from the spec: DELETE cleanup-file — delete one uploaded file by
identifier; an unknown identifier yields a NotFound-class failure, never a
silent success. -/
def cleanupFile (fid : Nat) (store : UploadStore) :
    CleanupResponse × UploadStore :=
  if store.files.any (fun p => p.1 == fid) then
    (⟨true, "File cleaned up successfully"⟩,
      ⟨store.nextId, store.files.filter (fun p => p.1 != fid)⟩)
  else
    (⟨false, "File not found"⟩, store)

/-! ## Backend: job-description validation -/

/-- The details record of the validate-job-description reply, as documented:
title, company, description length, and the two skill counts. -/
structure ValidationDetails where
  title : String
  company : String
  description_length : Nat
  required_skills_count : Nat
  preferred_skills_count : Nat
deriving DecidableEq

/-- Reply of the validate-job-description endpoint. -/
structure ValidationResponse where
  success : Bool
  message : String
  details : Option ValidationDetails
deriving DecidableEq

/-- Modelled from the spec: POST validate-job-description — pure validation of
the payload: free text requires a minimum length of 50 characters, else a
ValidationError; on success the details record is computed from the payload
alone.  The upload store, the only server-side mutable state, is neither read
nor written. -/
def validateJobDescription (jd : JobDescription) (store : UploadStore) :
    ValidationResponse × UploadStore :=
  if jd.description.length < 50 then
    (⟨false, "Job description must be at least 50 characters", none⟩, store)
  else
    (⟨true, "Job description is valid",
      some ⟨jd.title, jd.company, jd.description.length,
        jd.required_skills.length, jd.preferred_skills.length⟩⟩, store)

/-! ## Backend: Profile Enricher, Suitability Scorer, Analysis Aggregator -/

/-- Outcome of one best-effort profile fetch: the normalized record, or a
local failure (network error, scrape blocked, 404). -/
inductive FetchResult (α : Type) where
  | ok (value : α)
  | failed
deriving DecidableEq

/-- Fetch one optional source: no URL or a failed fetch yields an absent
sub-record. -/
def fetchOptional {α : Type} (url : Option String)
    (fetch : String → FetchResult α) : Option α :=
  match url with
  | none => none
  | some u =>
      match fetch u with
      | FetchResult.ok v => some v
      | FetchResult.failed => none

/-- Modelled from the spec: the Profile Enricher — each of the three sources
is fetched independently and per-source failures degrade to an absent
sub-record; when no sub-record is present (in particular when all three URLs
are omitted) the ProfileEnrichment is entirely absent.  The component itself
never fails. -/
def enrich (liUrl ghUrl pfUrl : Option String)
    (liFetch : String → FetchResult LinkedInProfile)
    (ghFetch : String → FetchResult GitHubProfile)
    (pfFetch : String → FetchResult (List (String × String))) :
    Option ProfileEnrichment :=
  let li := fetchOptional liUrl liFetch
  let gh := fetchOptional ghUrl ghFetch
  let pf := fetchOptional pfUrl pfFetch
  match li, gh, pf with
  | none, none, none => none
  | _, _, _ => some ⟨li, gh, pf⟩

/-- The structured reply of the scoring oracle in the 145-point variant:
the four sub-scores, the narrative explanation, and the qualitative lists. -/
structure OracleScores where
  resume_match : Rat
  linkedin_score : Rat
  github_score : Rat
  portfolio_score : Rat
  explanation : String
  recommendations : List String
  red_flags : List String
deriving DecidableEq

/-- Whether an Except value is a success. -/
def exceptIsOk {ε α : Type} : Except ε α → Bool
  | Except.ok _ => true
  | Except.error _ => false

/-- Modelled from the spec: the Suitability Scorer in the 145-point variant —
the LLM oracle produces the four sub-scores and the qualitative lists, and
total_score is their sum (resume_match out of 100 plus up to 20 / 15 / 10
bonus points).  Oracle failure (ParseError or UpstreamError, folded into the
error string) propagates to the caller. -/
def scoreCandidate
    (oracle : ResumeData → JobDescription → Option ProfileEnrichment →
      Except String OracleScores)
    (resume : ResumeData) (jd : JobDescription)
    (enr : Option ProfileEnrichment) :
    Except String (ScoreBreakdown × List String × List String) :=
  match oracle resume jd enr with
  | Except.error e => Except.error e
  | Except.ok s =>
      Except.ok
        (⟨s.resume_match, s.linkedin_score, s.github_score, s.portfolio_score,
          s.resume_match + s.linkedin_score + s.github_score + s.portfolio_score,
          s.explanation⟩,
          s.recommendations, s.red_flags)

/-- Modelled from the spec: the Analysis Aggregator — pure assembly of the
terminal CandidateAnalysis, stamping the timestamp. -/
def aggregate (resume : ResumeData) (jd : JobDescription)
    (enr : Option ProfileEnrichment) (breakdown : ScoreBreakdown)
    (recs rflags : List String) (ts : String) : CandidateAnalysis :=
  { candidate_name := resume.name
    resume_data := resume
    job_description := jd
    profile_enrichment := enr
    score_breakdown := breakdown
    recommendations := recs
    red_flags := rflags
    analysis_timestamp := ts }

/-- Modelled from the spec: the analysis pipeline downstream of resume parsing
and job resolution — enrich (best effort) then score then aggregate.  The only
failure source is the scoring oracle; enrichment failures never propagate. -/
def analyzeCandidate
    (oracle : ResumeData → JobDescription → Option ProfileEnrichment →
      Except String OracleScores)
    (liFetch : String → FetchResult LinkedInProfile)
    (ghFetch : String → FetchResult GitHubProfile)
    (pfFetch : String → FetchResult (List (String × String)))
    (resume : ResumeData) (jd : JobDescription)
    (liUrl ghUrl pfUrl : Option String) (ts : String) :
    Except String CandidateAnalysis :=
  let enr := enrich liUrl ghUrl pfUrl liFetch ghFetch pfFetch
  match scoreCandidate oracle resume jd enr with
  | Except.error e => Except.error e
  | Except.ok (bd, recs, rflags) =>
      Except.ok (aggregate resume jd enr bd recs rflags ts)

/-! ## Shared sample data for concrete witnesses -/

def sampleResume : ResumeData :=
  { name := some "Jane Roe", email := some "jane@example.com", phone := none,
    location := none, education := [], skills := ["Python", "React"],
    experience := [], certifications := [], languages := [], summary := none,
    projects := none, linkedin_url := none, github_url := none,
    portfolio_url := none }

def sampleJd : JobDescription :=
  { title := "Senior Software Engineer", company := "Tech Corp",
    description := "We are looking for a senior software engineer with Python and React experience.",
    required_skills := ["Python", "React"], preferred_skills := ["AWS"],
    experience_level := some "Senior", education_requirements := [],
    location := none }

def sampleOracle : ResumeData → JobDescription → Option ProfileEnrichment →
    Except String OracleScores :=
  fun _ _ _ =>
    Except.ok ⟨85, 15, 12, 8, "Strong candidate", ["Proceed to interview"], []⟩

def sampleBreakdown : ScoreBreakdown :=
  ⟨85, 15, 12, 8, 85 + 15 + 12 + 8, "Strong candidate"⟩

def sampleAnalysis : CandidateAnalysis :=
  aggregate sampleResume sampleJd none sampleBreakdown
    ["Proceed to interview"] [] "2024-01-01T12:00:00Z"

/-! ## Auxiliary length lemmas for the trim model -/

theorem length_dropWhile_le_chars {α : Type} (p : α → Bool) :
    ∀ l : List α, (l.dropWhile p).length ≤ l.length := by
  intro l
  induction l with
  | nil => simp [List.dropWhile]
  | cons c rest ih =>
      rw [List.dropWhile_cons]
      by_cases h : p c = true
      · simp only [h, if_true]
        exact Nat.le_trans ih (Nat.le_succ _)
      · simp [h]

theorem jsTrim_length_le (s : String) : (jsTrim s).length ≤ s.length := by
  show (((s.data.dropWhile isJsWhitespace).reverse.dropWhile
      isJsWhitespace).reverse).length ≤ s.data.length
  calc (((s.data.dropWhile isJsWhitespace).reverse.dropWhile
        isJsWhitespace).reverse).length
      = ((s.data.dropWhile isJsWhitespace).reverse.dropWhile
          isJsWhitespace).length := List.length_reverse _
    _ ≤ (s.data.dropWhile isJsWhitespace).reverse.length :=
        length_dropWhile_le_chars _ _
    _ = (s.data.dropWhile isJsWhitespace).length := List.length_reverse _
    _ ≤ s.data.length := length_dropWhile_le_chars _ _

/-! ## Claim theorems -/

/-- C1: for any oracle-returned sub-scores, an analysis produced by the
pipeline has a total_score equal to the sum of its four sub-scores
(resume_match + linkedin_score + github_score + portfolio_score, the 145-point
variant). -/
theorem total_score_is_sum_of_subscores
    (oracle : ResumeData → JobDescription → Option ProfileEnrichment →
      Except String OracleScores)
    (liFetch : String → FetchResult LinkedInProfile)
    (ghFetch : String → FetchResult GitHubProfile)
    (pfFetch : String → FetchResult (List (String × String)))
    (resume : ResumeData) (jd : JobDescription)
    (liUrl ghUrl pfUrl : Option String) (ts : String) (a : CandidateAnalysis)
    (h : analyzeCandidate oracle liFetch ghFetch pfFetch resume jd
      liUrl ghUrl pfUrl ts = Except.ok a) :
    a.score_breakdown.total_score =
      a.score_breakdown.resume_match + a.score_breakdown.linkedin_score +
      a.score_breakdown.github_score + a.score_breakdown.portfolio_score := by
  cases hock : oracle resume jd (enrich liUrl ghUrl pfUrl liFetch ghFetch pfFetch) with
  | error e =>
      simp only [analyzeCandidate, scoreCandidate, hock] at h
      exact absurd h (by simp)
  | ok s =>
      simp only [analyzeCandidate, scoreCandidate, hock, Except.ok.injEq] at h
      subst h
      simp [aggregate]

/-- Witness for C1 at concrete inputs: the pipeline run on the sample data
produces the sample analysis, whose total is the sum of its sub-scores. -/
theorem total_score_is_sum_of_subscores_witness :
    sampleAnalysis.score_breakdown.total_score =
      sampleAnalysis.score_breakdown.resume_match +
      sampleAnalysis.score_breakdown.linkedin_score +
      sampleAnalysis.score_breakdown.github_score +
      sampleAnalysis.score_breakdown.portfolio_score :=
  total_score_is_sum_of_subscores sampleOracle (fun _ => FetchResult.failed)
    (fun _ => FetchResult.failed) (fun _ => FetchResult.failed)
    sampleResume sampleJd none none none "2024-01-01T12:00:00Z"
    sampleAnalysis rfl

/-- C2: a job-description text whose length is below 50 characters never
issues the comprehensive-analysis request: the handler stops at a validation
guard and the presentation state is untouched. -/
theorem short_job_description_no_request {F R U D : Type} (file : Option F)
    (jobDescription : String) (outcome : FetchOutcome R U D)
    (st : AnalysisState R U D) (h : jobDescription.length < 50) :
    handleAnalyze file jobDescription outcome st = (st, false) := by
  have htrim : (jsTrim jobDescription).length < 50 :=
    Nat.lt_of_le_of_lt (jsTrim_length_le jobDescription) h
  unfold handleAnalyze
  by_cases hf : file.isNone
  · simp [hf]
  · by_cases he : jsTrim jobDescription = ""
    · simp [hf, he]
    · simp [hf, he, htrim]

/-- Witness for C2 at a concrete input: a 5-character job description with a
file selected issues no request. -/
theorem short_job_description_no_request_witness :
    handleAnalyze (some ()) "short"
      (FetchOutcome.thrown : FetchOutcome Unit Unit Unit) resetState
      = (resetState, false) :=
  short_job_description_no_request (some ()) "short" FetchOutcome.thrown
    resetState (by decide)

/-- C3: upload validation accepts exactly the files with an allowed extension
(pdf, docx, txt) and size at most the configured maximum (10485760 bytes), and
a file rejected by validation yields a rejected upload response with the store
untouched (no partial success). -/
theorem upload_validation_decides (extractOracle : String → String)
    (ext : String) (size : Nat) (content : String) (now : Nat)
    (store : UploadStore) :
    (validateUpload ext size = none ↔
      ext ∈ allowedExtensions ∧ size ≤ maxFileSize)
    ∧ (∀ e, validateUpload ext size = some e →
        uploadResume extractOracle ext size content now store
          = (UploadOutcome.rejected e, store)) := by
  constructor
  · unfold validateUpload
    by_cases hc : ext ∈ allowedExtensions
    · by_cases hs : maxFileSize < size
      · have hns : ¬ size ≤ maxFileSize := by omega
        simp [hc, hs, hns]
      · have hle : size ≤ maxFileSize := by omega
        simp [hc, hs, hle]
    · simp [hc]
  · intro e he
    simp only [uploadResume, he]

/-- Witness for C3 at a concrete input: a disallowed extension is rejected
with InvalidFileType and the store is unchanged. -/
theorem upload_validation_decides_witness :
    uploadResume (fun s => s) "exe" 5 "hello" 0 ⟨0, []⟩
      = (UploadOutcome.rejected UploadError.invalidFileType, ⟨0, []⟩) :=
  (upload_validation_decides (fun s => s) "exe" 5 "hello" 0 ⟨0, []⟩).2
    UploadError.invalidFileType (by decide)

/-- C4: failure of any profile-enrichment source never propagates as failure
of the analysis: whenever the scoring oracle succeeds the pipeline succeeds,
whatever the three fetch outcomes are; with all three URLs omitted the
ProfileEnrichment is entirely absent; and a failed GitHub fetch leaves the
GitHub sub-record absent from the produced analysis. -/
theorem enrichment_failure_never_fails_analysis
    (oracle : ResumeData → JobDescription → Option ProfileEnrichment →
      Except String OracleScores)
    (liFetch : String → FetchResult LinkedInProfile)
    (ghFetch : String → FetchResult GitHubProfile)
    (pfFetch : String → FetchResult (List (String × String)))
    (resume : ResumeData) (jd : JobDescription)
    (liUrl ghUrl pfUrl : Option String) (ts : String)
    (horacle : ∀ e, exceptIsOk (oracle resume jd e) = true) :
    exceptIsOk (analyzeCandidate oracle liFetch ghFetch pfFetch resume jd
      liUrl ghUrl pfUrl ts) = true
    ∧ enrich none none none liFetch ghFetch pfFetch = none
    ∧ (∀ u, ghUrl = some u → ghFetch u = FetchResult.failed →
        ∀ a, analyzeCandidate oracle liFetch ghFetch pfFetch resume jd
          liUrl ghUrl pfUrl ts = Except.ok a →
          a.profile_enrichment.bind ProfileEnrichment.github = none) := by
  refine ⟨?_, rfl, ?_⟩
  · cases hock : oracle resume jd (enrich liUrl ghUrl pfUrl liFetch ghFetch pfFetch) with
    | error e =>
        have hok := horacle (enrich liUrl ghUrl pfUrl liFetch ghFetch pfFetch)
        rw [hock] at hok
        simp [exceptIsOk] at hok
    | ok s =>
        simp [analyzeCandidate, scoreCandidate, hock, exceptIsOk]
  · intro u hu hfail a ha
    cases hock : oracle resume jd (enrich liUrl ghUrl pfUrl liFetch ghFetch pfFetch) with
    | error e =>
        simp only [analyzeCandidate, scoreCandidate, hock] at ha
        exact absurd ha (by simp)
    | ok s =>
        simp only [analyzeCandidate, scoreCandidate, hock, Except.ok.injEq] at ha
        subst ha
        subst hu
        simp only [aggregate]
        have hgh : fetchOptional (some u) ghFetch = none := by
          simp [fetchOptional, hfail]
        simp only [enrich, hgh]
        cases fetchOptional liUrl liFetch <;>
          cases fetchOptional pfUrl pfFetch <;>
            simp [ProfileEnrichment.github]

/-- Witness for C4 at concrete inputs: with a GitHub URL supplied and every
fetch failing, the pipeline still succeeds. -/
theorem enrichment_failure_never_fails_analysis_witness :
    exceptIsOk (analyzeCandidate sampleOracle (fun _ => FetchResult.failed)
      (fun _ => FetchResult.failed) (fun _ => FetchResult.failed)
      sampleResume sampleJd none (some "https://github.com/janeroe") none
      "2024-01-01T12:00:00Z") = true :=
  (enrichment_failure_never_fails_analysis sampleOracle
    (fun _ => FetchResult.failed) (fun _ => FetchResult.failed)
    (fun _ => FetchResult.failed) sampleResume sampleJd
    none (some "https://github.com/janeroe") none "2024-01-01T12:00:00Z"
    (fun _ => rfl)).1

/-- C5 counterexample: the claim that the program presents the total on a
single scale is false — the enrichment breakdown view labels total_score as
out of 145 while the job-specific view labels the same field as out of 100. -/
theorem two_scales_for_total_score :
    breakdownViewTotalMax ≠ jobSpecificViewTotalMax := by decide

/-- C5 amended: each of the two result views is internally consistent on its
own scale — the breakdown view total maximum is the sum of its four sub-score
maxima and its bonus maxima match the +20 / +15 / +10 advertised by
ProfileUrlsForm, and the job-specific view total maximum equals the 0-100
scale of resume_match — but the two views present the total on different
scales. -/
theorem each_view_internally_consistent :
    breakdownViewTotalMax =
      breakdownViewResumeMax + breakdownViewLinkedinMax +
      breakdownViewGithubMax + breakdownViewPortfolioMax
    ∧ breakdownViewLinkedinMax = linkedinBonusMax
    ∧ breakdownViewGithubMax = githubBonusMax
    ∧ breakdownViewPortfolioMax = portfolioBonusMax
    ∧ jobSpecificViewTotalMax = breakdownViewResumeMax
    ∧ breakdownViewTotalMax ≠ jobSpecificViewTotalMax := by decide

/-- C6: validating the same job-description payload twice yields the identical
response (in particular identical details), and validation leaves the server
state untouched: it is a pure function of its payload. -/
theorem validate_job_description_idempotent (jd : JobDescription)
    (store : UploadStore) :
    (validateJobDescription jd (validateJobDescription jd store).2).1
      = (validateJobDescription jd store).1
    ∧ (validateJobDescription jd (validateJobDescription jd store).2).2
      = store := by
  unfold validateJobDescription
  by_cases h : jd.description.length < 50 <;> simp [h]

/-- C7: a file passing upload validation is accepted with the extracted text
and a freshly generated identifier; uploading the same bytes twice yields two
distinct identifiers, and the extracted text is non-empty whenever the
extraction output for those bytes is non-empty. -/
theorem upload_accepts_with_fresh_id_and_text (extractOracle : String → String)
    (ext : String) (size : Nat) (content : String) (now1 now2 : Nat)
    (store : UploadStore)
    (hval : validateUpload ext size = none)
    (htext : (if ext = "txt" then content else extractOracle content) ≠ "") :
    ∃ fid1 t1 store1 fid2 t2 store2,
      uploadResume extractOracle ext size content now1 store
        = (UploadOutcome.accepted fid1 t1, store1)
      ∧ uploadResume extractOracle ext size content now2 store1
        = (UploadOutcome.accepted fid2 t2, store2)
      ∧ fid1 ≠ fid2 ∧ t1 ≠ "" ∧ t2 ≠ "" := by
  refine ⟨store.nextId, (if ext = "txt" then content else extractOracle content),
    ⟨store.nextId + 1,
      (store.nextId,
        ⟨(if ext = "txt" then content else extractOracle content), now1⟩)
        :: store.files⟩,
    store.nextId + 1, (if ext = "txt" then content else extractOracle content),
    ⟨store.nextId + 1 + 1,
      (store.nextId + 1,
        ⟨(if ext = "txt" then content else extractOracle content), now2⟩)
        :: (store.nextId,
          ⟨(if ext = "txt" then content else extractOracle content), now1⟩)
          :: store.files⟩,
    ?_, ?_, by omega, htext, htext⟩
  · simp only [uploadResume, hval]
  · simp only [uploadResume, hval]

/-- Witness for C7 at concrete inputs: two uploads of the same 3-byte txt file
are both accepted with distinct identifiers and non-empty text. -/
theorem upload_accepts_with_fresh_id_and_text_witness :
    ∃ fid1 t1 store1 fid2 t2 store2,
      uploadResume (fun s => s) "txt" 3 "abc" 0 ⟨0, []⟩
        = (UploadOutcome.accepted fid1 t1, store1)
      ∧ uploadResume (fun s => s) "txt" 3 "abc" 1 store1
        = (UploadOutcome.accepted fid2 t2, store2)
      ∧ fid1 ≠ fid2 ∧ t1 ≠ "" ∧ t2 ≠ "" :=
  upload_accepts_with_fresh_id_and_text (fun s => s) "txt" 3 "abc" 0 1 ⟨0, []⟩
    (by decide) (by decide)

/-- C8: deleting by an identifier not present in the store yields a failure
response (success flag false, NotFound-class message) and never a silent
success; the store is untouched. -/
theorem cleanup_unknown_id_not_found (fid : Nat) (store : UploadStore)
    (h : store.files.any (fun p => p.1 == fid) = false) :
    (cleanupFile fid store).1.success = false
    ∧ (cleanupFile fid store).1.message = "File not found"
    ∧ (cleanupFile fid store).2 = store := by
  unfold cleanupFile
  simp [h]

/-- Witness for C8 at a concrete input: deleting identifier 7 from an empty
store fails with the NotFound message. -/
theorem cleanup_unknown_id_not_found_witness :
    (cleanupFile 7 ⟨0, []⟩).1.success = false
    ∧ (cleanupFile 7 ⟨0, []⟩).1.message = "File not found"
    ∧ (cleanupFile 7 ⟨0, []⟩).2 = ⟨0, []⟩ :=
  cleanup_unknown_id_not_found 7 ⟨0, []⟩ rfl

/-- C9: whenever the comprehensive-analysis request was issued and its outcome
is a failure (thrown error, non-ok HTTP status, or success flag false), the
final presentation state is the reset state: analyzing false and results,
extractedUrls, analysisDetails all null. -/
theorem failed_request_resets_state {F R U D : Type} (file : Option F)
    (jobDescription : String) (outcome : FetchOutcome R U D)
    (st : AnalysisState R U D)
    (hreq : (handleAnalyze file jobDescription outcome st).2 = true)
    (hfail : failingOutcome outcome = true) :
    (handleAnalyze file jobDescription outcome st).1 = resetState := by
  unfold handleAnalyze at hreq ⊢
  by_cases hf : file.isNone
  · simp [hf] at hreq
  · by_cases he : jsTrim jobDescription = ""
    · simp [hf, he] at hreq
    · by_cases hl : (jsTrim jobDescription).length < 50
      · simp [hf, he, hl] at hreq
      · cases outcome with
        | thrown => simp [hf, he, hl]
        | reply ok success a e d =>
            cases ok with
            | false => simp [hf, he, hl]
            | true =>
                cases success with
                | false => simp [hf, he, hl]
                | true => simp [failingOutcome] at hfail

/-- Witness for C9 at a concrete input: a thrown fetch with valid inputs
resets a previously analyzing state. -/
theorem failed_request_resets_state_witness :
    (handleAnalyze (some ())
      "aaaaaaaaaaaaaaaaaaaaaaaaaaaaaaaaaaaaaaaaaaaaaaaaaa"
      (FetchOutcome.thrown : FetchOutcome Unit Unit Unit)
      ⟨true, none, none, none⟩).1 = resetState :=
  failed_request_resets_state (some ())
    "aaaaaaaaaaaaaaaaaaaaaaaaaaaaaaaaaaaaaaaaaaaaaaaaaa"
    FetchOutcome.thrown ⟨true, none, none, none⟩ (by decide) (by decide)

/-- C10: the LinkedIn (resp. GitHub) field validator accepts an empty input
unconditionally, and accepts a non-empty input exactly when it parses as a URL
and the substring linkedin.com (resp. github.com) occurs anywhere in the
string — in particular a URL with an unrelated host whose path contains the
substring is accepted. -/
theorem profile_url_validation_characterization
    (parsesAsUrl : String → Bool) (value : String) :
    (validateLinkedInUrl parsesAsUrl value = FieldValidation.valid ↔
      (value = "" ∨ (parsesAsUrl value = true ∧
        ∃ p t, value.data = p ++ ("linkedin.com".data ++ t))))
    ∧ (validateGitHubUrl parsesAsUrl value = FieldValidation.valid ↔
      (value = "" ∨ (parsesAsUrl value = true ∧
        ∃ p t, value.data = p ++ ("github.com".data ++ t)))) := by
  simp only [← containsSub_iff]
  constructor
  · by_cases hv : value = ""
    · simp [validateLinkedInUrl, hv]
    · by_cases hp : parsesAsUrl value = true
      · by_cases hc : containsSub ("linkedin.com".data) value.data = true
        · simp [validateLinkedInUrl, validateUrl, hv, hp, hc]
        · simp [validateLinkedInUrl, validateUrl, hv, hp, hc]
      · simp [validateLinkedInUrl, validateUrl, hv, hp]
  · by_cases hv : value = ""
    · simp [validateGitHubUrl, hv]
    · by_cases hp : parsesAsUrl value = true
      · by_cases hc : containsSub ("github.com".data) value.data = true
        · simp [validateGitHubUrl, validateUrl, hv, hp, hc]
        · simp [validateGitHubUrl, validateUrl, hv, hp, hc]
      · simp [validateGitHubUrl, validateUrl, hv, hp]

/-- C7 counterexample: an empty txt file is of a supported type and under the
size limit (validation passes), yet upload accepts it with an empty extracted
text, so the unconditional non-empty-text claim is false at this input. -/
theorem empty_txt_upload_empty_text :
    validateUpload "txt" 0 = none
    ∧ uploadResume (fun s => s) "txt" 0 "" 0 ⟨0, []⟩
        = (UploadOutcome.accepted 0 "", ⟨1, [(0, ⟨"", 0⟩)]⟩) :=
  ⟨rfl, rfl⟩
